import Mathlib

/-!
Verification development for the KUKA pick-and-place scenario scripts.

The embedded code is `Kuka_updated/scenario.py` (class `ExampleScenario`:
the phase state machine `update_scenario`, the per-phase controller
`_execute_phase`, the cosine interpolator `_interpolate_positions`) and
`ui_builder.py` (`UIBuilder._reset_scenario`).

Modelling conventions:
* numpy joint-configuration vectors are `Fin n → ℝ`, operated on
  componentwise exactly as numpy broadcasting does;
* float scalars of the controller mathematics are `ℝ` (with `Real.cos`
  for `np.cos`), so those definitions are `noncomputable`;
* the time bookkeeping of the phase state machine involves no
  transcendental function, so it is embedded over `ℚ` and is executable;
* side effects on the simulator (`apply_action`, `set_world_pose`) are
  recorded as booleans in the result of a step, since the scenario state
  itself never reads them back.
-/

namespace KukaScenario

/-! ## The controller mathematics (`ExampleScenario._execute_phase` and
`ExampleScenario._interpolate_positions`, scenario.py lines 153-205) -/

/-- `smooth_t = (1 - np.cos(t * np.pi)) / 2` from
`_interpolate_positions` (scenario.py line 204). -/
noncomputable def smooth_t (t : ℝ) : ℝ := (1 - Real.cos (t * Real.pi)) / 2

/-- `_interpolate_positions(start, end, t) = start + (end - start) * smooth_t`
(scenario.py lines 201-205), componentwise over the joint vector. -/
noncomputable def interpolate_positions {n : ℕ} (start endPos : Fin n → ℝ)
    (t : ℝ) : Fin n → ℝ :=
  fun i => start i + (endPos i - start i) * smooth_t t

/-- `t = min(self._phase_time / self._phase_duration, 1.0)`
(scenario.py line 157). -/
noncomputable def progress_t (phase_time duration : ℝ) : ℝ :=
  min (phase_time / duration) 1

/-- `np.clip(x, lo, hi)` on a scalar. -/
noncomputable def np_clip (x lo hi : ℝ) : ℝ := min (max x lo) hi

/-- `max_velocity = 2.0  # rad/s` (scenario.py line 191). -/
noncomputable def max_velocity : ℝ := 2

/-- The velocity command of `_execute_phase` (scenario.py lines 188-192):
`velocity = np.clip((target - current) / max(step, 0.001), -2.0, 2.0)`. -/
noncomputable def commanded_velocity {n : ℕ} (target current : Fin n → ℝ)
    (step : ℝ) : Fin n → ℝ :=
  fun i => np_clip ((target i - current i) / max step 0.001)
    (-max_velocity) max_velocity

/-- The per-phase target selection of `_execute_phase`
(scenario.py lines 163-185). -/
noncomputable def execute_phase_target {n : ℕ} (phase : ℕ) (t : ℝ)
    (home pre grasp lift place : Fin n → ℝ) : Fin n → ℝ :=
  if phase = 0 then interpolate_positions home pre t
  else if phase = 1 then interpolate_positions pre grasp t
  else if phase = 2 then grasp
  else if phase = 3 then interpolate_positions grasp lift t
  else if phase = 4 then interpolate_positions lift place t
  else if phase = 5 then place
  else if phase = 6 then interpolate_positions place home t
  else home

/-- The whole of `_execute_phase` (scenario.py lines 153-199): the
`(joint_positions, joint_velocities)` pair passed to `apply_action`. -/
noncomputable def execute_phase {n : ℕ} (phase : ℕ) (phase_time duration : ℝ)
    (home pre grasp lift place current : Fin n → ℝ) (step : ℝ) :
    (Fin n → ℝ) × (Fin n → ℝ) :=
  let t := progress_t phase_time duration
  let target := execute_phase_target phase t home pre grasp lift place
  (target, commanded_velocity target current step)

/-- The configuration each branch of `_execute_phase` starts from at the
beginning of its phase (the first argument of each `_interpolate_positions`
call in scenario.py lines 163-185; the holding phases 2 and 5 keep their
constant configuration, the `else` fallback is `home`). -/
noncomputable def phase_start_config {n : ℕ} (phase : ℕ)
    (home pre grasp lift place : Fin n → ℝ) : Fin n → ℝ :=
  if phase = 0 then home
  else if phase = 1 then pre
  else if phase = 2 then grasp
  else if phase = 3 then grasp
  else if phase = 4 then lift
  else if phase = 5 then place
  else if phase = 6 then place
  else home

/-- The configuration each branch of `_execute_phase` ends at (the second
argument of each `_interpolate_positions` call in scenario.py
lines 163-185). -/
noncomputable def phase_end_config {n : ℕ} (phase : ℕ)
    (home pre grasp lift place : Fin n → ℝ) : Fin n → ℝ :=
  if phase = 0 then pre
  else if phase = 1 then grasp
  else if phase = 2 then grasp
  else if phase = 3 then lift
  else if phase = 4 then place
  else if phase = 5 then place
  else if phase = 6 then home
  else home

/-- Modelled from the spec: "Velocity commands are derived as
`(target - current)/step`, clamped to a fixed magnitude" — division by the
raw `step`, without the `max(step, 0.001)` guard the code applies. -/
noncomputable def spec_velocity {n : ℕ} (target current : Fin n → ℝ)
    (step : ℝ) : Fin n → ℝ :=
  fun i => np_clip ((target i - current i) / step) (-max_velocity) max_velocity

/-- Modelled from the spec: the normalized progress
"`t = clamp(elapsed/duration, 0, 1)`" — clamped on both sides, where the
code only takes `min` with 1. -/
noncomputable def spec_progress_t (phase_time duration : ℝ) : ℝ :=
  min (max (phase_time / duration) 0) 1

/-! ## The phase state machine (`ExampleScenario.__init__`,
`setup_scenario`, `teardown_scenario`, `update_scenario`,
scenario.py lines 46-151), over exact rationals -/

/-- The scenario-owned state of `ExampleScenario`: `_running_scenario`,
`_time`, `_phase`, `_phase_time`, `_cube_grasped`.  The live simulator
handles (`_articulation`, `_object`) and the joint-configuration constants
are owned by the host and not part of the time bookkeeping. -/
structure ScenarioState where
  running : Bool
  time : ℚ
  phase : ℕ
  phase_time : ℚ
  cube_grasped : Bool
  deriving DecidableEq, Repr

/-- `self._phase_duration = 2.0` (scenario.py line 56). -/
def phase_duration : ℚ := 2

/-- The state set up by `ExampleScenario.__init__` (scenario.py
lines 47-67). -/
def initState : ScenarioState :=
  ⟨false, 0, 0, 0, false⟩

/-- `setup_scenario` (scenario.py lines 69-104): sets `_running_scenario`,
resets `_phase`, `_phase_time` and `_cube_grasped`; note that `_time` is
left as it was. -/
def setup_scenario (s : ScenarioState) : ScenarioState :=
  ⟨true, s.time, 0, 0, false⟩

/-- `teardown_scenario` (scenario.py lines 106-113). -/
def teardown_scenario (_s : ScenarioState) : ScenarioState :=
  ⟨false, 0, 0, 0, false⟩

/-- The observable outcome of one `update_scenario(step)` call: the new
scenario state, whether `_execute_phase` issued an `apply_action`
(`applied`), and whether `_update_cube_position` moved the cube
(`cubeUpdated`). -/
structure StepResult where
  st : ScenarioState
  applied : Bool
  cubeUpdated : Bool
  deriving DecidableEq, Repr

/-- `update_scenario(step)` (scenario.py lines 115-151).

Line by line: return untouched when not running; accumulate `_time` and
`_phase_time`; when `_phase_time >= _phase_duration`, advance `_phase`,
zero `_phase_time`, set `_cube_grasped` on entering phase 2 and clear it
on entering phase 5, and on reaching phase >= 7 stop running and return
before any motion command; otherwise `_execute_phase(step)` runs
(`applied = true`) and the cube follows the arm exactly when
`_cube_grasped` holds afterwards. -/
def update_scenario (s : ScenarioState) (step : ℚ) : StepResult :=
  if s.running = false then ⟨s, false, false⟩
  else
    let time := s.time + step
    let pt := s.phase_time + step
    if phase_duration ≤ pt then
      let ph := s.phase + 1
      let grasped :=
        if ph = 2 then true else if ph = 5 then false else s.cube_grasped
      if 7 ≤ ph then
        ⟨⟨false, time, ph, 0, grasped⟩, false, false⟩
      else
        ⟨⟨true, time, ph, 0, grasped⟩, true, grasped⟩
    else
      ⟨⟨true, time, s.phase, pt, s.cube_grasped⟩, true, s.cube_grasped⟩

/-- Iterating `update_scenario` over a list of physics steps. -/
def runFrom (s : ScenarioState) (steps : List ℚ) : ScenarioState :=
  steps.foldl (fun a step => (update_scenario a step).st) s

/-- A state reachable from some `setup_scenario` call by `update_scenario`
calls with non-negative physics steps. -/
def Reachable (s : ScenarioState) : Prop :=
  ∃ s0 steps, (∀ x ∈ steps, (0:ℚ) ≤ x) ∧ s = runFrom (setup_scenario s0) steps

/-- The inductive invariant of the phase state machine: a running scenario
is in a phase at most 6, the phase ordinal never passes 7, and the cube is
held exactly during phases 2, 3 and 4. -/
def Inv (s : ScenarioState) : Prop :=
  (s.running = true → s.phase ≤ 6) ∧ s.phase ≤ 7 ∧
  (s.cube_grasped = true ↔ (s.phase = 2 ∨ s.phase = 3 ∨ s.phase = 4))

/-! ## The UI glue (`UIBuilder._reset_scenario`, ui_builder.py
lines 176-182) -/

/-- The `UIBuilder` fields `_reset_scenario` reads: the two handles it
checks against `None` and the wrapped scenario's state. -/
structure UIState where
  articulation : Option Unit
  cuboid : Option Unit
  scenario : ScenarioState
  deriving DecidableEq, Repr

/-- The observable outcome of `_reset_scenario`: resulting state, whether
the warning was printed, and which scenario lifecycle calls ran. -/
structure ResetResult where
  ui : UIState
  warned : Bool
  calledTeardown : Bool
  calledSetup : Bool
  deriving DecidableEq, Repr

/-- `_reset_scenario` (ui_builder.py lines 176-182): when either handle is
unset it prints the warning and returns at once; otherwise it tears the
scenario down and sets it up again. -/
def reset_scenario (u : UIState) : ResetResult :=
  if u.articulation = none ∨ u.cuboid = none then
    ⟨u, true, false, false⟩
  else
    ⟨⟨u.articulation, u.cuboid,
      setup_scenario (teardown_scenario u.scenario)⟩, false, true, true⟩

/-! ## Helper lemmas -/

lemma smooth_t_zero : smooth_t 0 = 0 := by
  simp [smooth_t]

lemma smooth_t_one : smooth_t 1 = 1 := by
  simp [smooth_t, Real.cos_pi]

lemma interpolate_positions_left {n : ℕ} (a b : Fin n → ℝ) :
    interpolate_positions a b 0 = a := by
  funext i
  simp [interpolate_positions, smooth_t_zero]

lemma interpolate_positions_right {n : ℕ} (a b : Fin n → ℝ) :
    interpolate_positions a b 1 = b := by
  funext i
  simp [interpolate_positions, smooth_t_one]

lemma update_scenario_not_running (s : ScenarioState) (step : ℚ)
    (h : s.running = false) :
    update_scenario s step = ⟨s, false, false⟩ := by
  simp [update_scenario, h]

lemma update_scenario_transition (s : ScenarioState) (step : ℚ)
    (hr : s.running = true) (hd : phase_duration ≤ s.phase_time + step) :
    (update_scenario s step).st.phase = s.phase + 1 ∧
    (update_scenario s step).st.phase_time = 0 := by
  simp only [update_scenario, hr, hd]
  split_ifs <;> simp_all

lemma update_scenario_no_transition (s : ScenarioState) (step : ℚ)
    (hr : s.running = true) (hd : s.phase_time + step < phase_duration) :
    update_scenario s step
      = ⟨⟨true, s.time + step, s.phase, s.phase_time + step, s.cube_grasped⟩,
         true, s.cube_grasped⟩ := by
  have h2 : ¬ phase_duration ≤ s.phase_time + step := not_le.mpr hd
  simp [update_scenario, hr, h2]

lemma update_scenario_into_2 (s : ScenarioState) (step : ℚ)
    (hr : s.running = true) (hp : s.phase = 1)
    (hd : phase_duration ≤ s.phase_time + step) :
    (update_scenario s step).st.cube_grasped = true := by
  simp [update_scenario, hr, hp, hd]

lemma update_scenario_into_5 (s : ScenarioState) (step : ℚ)
    (hr : s.running = true) (hp : s.phase = 4)
    (hd : phase_duration ≤ s.phase_time + step) :
    (update_scenario s step).st.cube_grasped = false := by
  simp [update_scenario, hr, hp, hd]

lemma update_scenario_cubeUpdated (s : ScenarioState) (step : ℚ)
    (h : (update_scenario s step).cubeUpdated = true) :
    (update_scenario s step).st.cube_grasped = true := by
  simp only [update_scenario] at h ⊢
  split_ifs at h ⊢ <;> simp_all

lemma Inv_update (s : ScenarioState) (step : ℚ) (h : Inv s) :
    Inv (update_scenario s step).st := by
  obtain ⟨r, tm, p, pt, g⟩ := s
  obtain ⟨h1, h2, h3⟩ := h
  cases r with
  | false =>
      rw [update_scenario_not_running ⟨false, tm, p, pt, g⟩ step rfl]
      exact ⟨h1, h2, h3⟩
  | true =>
      have h6 : p ≤ 6 := h1 rfl
      have h3' : g = true ↔ (p = 2 ∨ p = 3 ∨ p = 4) := h3
      clear h1 h2 h3
      by_cases hd : phase_duration ≤ pt + step
      · interval_cases p <;> simp_all [update_scenario, Inv]
      · have h7 : p ≤ 7 := by omega
        have hlt : pt + step < phase_duration := not_le.mp hd
        rw [update_scenario_no_transition _ step rfl hlt]
        exact ⟨fun _ => h6, h7, h3'⟩

lemma Inv_runFrom (steps : List ℚ) (s : ScenarioState) (h : Inv s) :
    Inv (runFrom s steps) := by
  induction steps generalizing s with
  | nil => exact h
  | cons x xs ih => exact ih _ (Inv_update s x h)

lemma Inv_setup (s : ScenarioState) : Inv (setup_scenario s) := by
  simp [Inv, setup_scenario]

lemma Inv_reachable (s : ScenarioState) (h : Reachable s) : Inv s := by
  obtain ⟨s0, steps, _, rfl⟩ := h
  exact Inv_runFrom steps _ (Inv_setup s0)

lemma reachable_setup_init : Reachable (setup_scenario initState) :=
  ⟨initState, [], by simp, rfl⟩

end KukaScenario

namespace KukaScenario

/-! ## Claim theorems (mathematics layer) -/

/-- C1: `_interpolate_positions` computes exactly the cosine-eased linear
blend of its two endpoint arguments: for every pair of joint-configuration
vectors and every `t`, the result is
`start + (end - start) * (1 - cos(t*pi))/2`, componentwise. -/
theorem interpolate_positions_is_cosine_blend {n : ℕ}
    (start endPos : Fin n → ℝ) (t : ℝ) :
    interpolate_positions start endPos t
      = fun i => start i + (endPos i - start i)
          * ((1 - Real.cos (t * Real.pi)) / 2) :=
  rfl

/-- C2: for every phase and every choice of the five joint configurations,
the target `_execute_phase` selects at interpolation factor `t = 0` is the
phase's start configuration, and at `t = 1` it is the phase's end
configuration. -/
theorem execute_phase_target_endpoints {n : ℕ} (phase : ℕ)
    (home pre grasp lift place : Fin n → ℝ) :
    execute_phase_target phase 0 home pre grasp lift place
      = phase_start_config phase home pre grasp lift place ∧
    execute_phase_target phase 1 home pre grasp lift place
      = phase_end_config phase home pre grasp lift place := by
  constructor <;>
    · simp only [execute_phase_target, phase_start_config, phase_end_config]
      split_ifs <;>
        simp [interpolate_positions_left, interpolate_positions_right]

/-- C3: the easing function `smooth_t` is monotonically non-decreasing on
`[0, 1]` and symmetric about `t = 0.5`: `smooth_t t + smooth_t (1 - t) = 1`
for every `t` in `[0, 1]`. -/
theorem smooth_t_monotone_and_symmetric :
    (∀ t s : ℝ, 0 ≤ t → t ≤ s → s ≤ 1 → smooth_t t ≤ smooth_t s) ∧
    (∀ t : ℝ, 0 ≤ t → t ≤ 1 → smooth_t t + smooth_t (1 - t) = 1) := by
  constructor
  · intro t s ht hts hs1
    have hcos : Real.cos (s * Real.pi) ≤ Real.cos (t * Real.pi) := by
      apply Real.cos_le_cos_of_nonneg_of_le_pi
      · exact mul_nonneg ht Real.pi_pos.le
      · calc s * Real.pi ≤ 1 * Real.pi :=
              mul_le_mul_of_nonneg_right hs1 Real.pi_pos.le
          _ = Real.pi := one_mul _
      · exact mul_le_mul_of_nonneg_right hts Real.pi_pos.le
    unfold smooth_t
    linarith
  · intro t _ _
    have h : (1 - t) * Real.pi = Real.pi - t * Real.pi := by ring
    unfold smooth_t
    rw [h, Real.cos_pi_sub]
    ring

/-- Witness for C3 at `t = 0`, `s = 1`. -/
theorem smooth_t_monotone_and_symmetric_witness :
    (0:ℝ) ≤ 0 ∧ (0:ℝ) ≤ 1 ∧ (1:ℝ) ≤ 1 ∧
    smooth_t 0 ≤ smooth_t 1 ∧ smooth_t 0 + smooth_t (1 - 0) = 1 :=
  ⟨by norm_num, by norm_num, by norm_num,
   smooth_t_monotone_and_symmetric.1 0 1 (by norm_num) (by norm_num)
     (by norm_num),
   smooth_t_monotone_and_symmetric.2 0 (by norm_num) (by norm_num)⟩

/-- C4 counterexample: at `step = 1/2000 < 0.001` the code divides by the
guard `max(step, 0.001) = 0.001`, not by `step`: with a single joint at
distance `3/2000` the code commands `1.5 rad/s` while the claimed formula
`clip((target-current)/step)` gives `2.0`. -/
theorem commanded_velocity_ne_spec_velocity :
    commanded_velocity (fun _ : Fin 1 => (3/2000 : ℝ)) (fun _ => 0)
        (1/2000) 0
      ≠ spec_velocity (fun _ : Fin 1 => (3/2000 : ℝ)) (fun _ => 0)
        (1/2000) 0 := by
  have h1 : max (1/2000 : ℝ) 0.001 = 0.001 := by
    rw [max_eq_right]
    norm_num
  unfold commanded_velocity spec_velocity np_clip max_velocity
  rw [h1]
  norm_num [min_def, max_def]

/-- C4 (amended): the commanded joint velocity equals
`(target - current) / max(step, 0.001)` clamped componentwise to
`[-2, 2]`; it agrees with the spec's `(target - current)/step` clamped
whenever `step ≥ 0.001`. -/
theorem commanded_velocity_clamped_guarded_step {n : ℕ} :
    (∀ (target current : Fin n → ℝ) (step : ℝ),
      commanded_velocity target current step
        = fun i => min (max ((target i - current i) / max step 0.001) (-2)) 2) ∧
    (∀ (target current : Fin n → ℝ) (step : ℝ), 0.001 ≤ step →
      commanded_velocity target current step
        = spec_velocity target current step) := by
  constructor
  · intro target current step
    rfl
  · intro target current step h
    funext i
    unfold commanded_velocity spec_velocity
    rw [max_eq_left h]

/-- Witness for C4's amended theorem at `step = 1` on one joint. -/
theorem commanded_velocity_clamped_guarded_step_witness :
    (0.001 : ℝ) ≤ 1 ∧
    commanded_velocity (fun _ : Fin 1 => (1:ℝ)) (fun _ => 0) 1
      = spec_velocity (fun _ : Fin 1 => (1:ℝ)) (fun _ => 0) 1 :=
  ⟨by norm_num,
   (commanded_velocity_clamped_guarded_step.2
      (fun _ : Fin 1 => (1:ℝ)) (fun _ => 0) 1 (by norm_num))⟩

/-- C5: for every phase, joint state and step value, each component of the
velocity vector `_execute_phase` applies lies within the clamp bounds
`[-2.0, 2.0]`. -/
theorem execute_phase_velocity_within_bounds {n : ℕ} (phase : ℕ)
    (phase_time duration : ℝ)
    (home pre grasp lift place current : Fin n → ℝ) (step : ℝ) (i : Fin n) :
    -2 ≤ (execute_phase phase phase_time duration
            home pre grasp lift place current step).2 i ∧
    (execute_phase phase phase_time duration
        home pre grasp lift place current step).2 i ≤ 2 := by
  unfold execute_phase commanded_velocity np_clip max_velocity
  constructor
  · exact le_min (le_max_right _ _) (by norm_num)
  · exact min_le_right _ _

/-- C6 counterexample: at `elapsed = -2` with `duration = 2` the code's
progress `min(elapsed/duration, 1)` is `-1`, while the claimed
`clamp(elapsed/duration, 0, 1)` is `0`: the code has no lower clamp. -/
theorem progress_t_ne_clamp :
    progress_t (-2) 2 ≠ spec_progress_t (-2) 2 := by
  norm_num [progress_t, spec_progress_t, min_def, max_def]

/-- C6 (amended): the normalized progress equals
`min(elapsed/duration, 1)`: it is bounded above by 1 for every elapsed
value, and bounded below by 0 whenever elapsed and duration are
non-negative — but not for negative elapsed values. -/
theorem progress_t_bounds (phase_time duration : ℝ) :
    progress_t phase_time duration = min (phase_time / duration) 1 ∧
    progress_t phase_time duration ≤ 1 ∧
    (0 ≤ phase_time → 0 ≤ duration → 0 ≤ progress_t phase_time duration) := by
  refine ⟨rfl, min_le_right _ _, fun h1 h2 => ?_⟩
  exact le_min (div_nonneg h1 h2) (by norm_num)

/-- Witness for C6's amended theorem at `elapsed = 1`, `duration = 2`. -/
theorem progress_t_bounds_witness :
    (0:ℝ) ≤ 1 ∧ (0:ℝ) ≤ 2 ∧ 0 ≤ progress_t 1 2 :=
  ⟨by norm_num, by norm_num,
   (progress_t_bounds 1 2).2.2 (by norm_num) (by norm_num)⟩

/-! ## Claim theorems (phase state machine and UI glue) -/

/-- C7: in every state reachable from `setup_scenario` by `update_scenario`
calls with non-negative steps, the phase never exceeds 7; once the phase
reaches 7 the scenario has stopped running; a stopped scenario is left
untouched by further calls and issues no motion command; and while running,
one call increments the phase (resetting the phase clock to 0) exactly when
the accumulated phase time reaches the phase duration. -/
theorem update_scenario_phase_machine (s : ScenarioState) (h : Reachable s) :
    s.phase ≤ 7 ∧
    (s.phase = 7 → s.running = false) ∧
    (s.running = false → ∀ step : ℚ,
      update_scenario s step = ⟨s, false, false⟩) ∧
    (s.running = true → ∀ step : ℚ,
      (phase_duration ≤ s.phase_time + step →
        (update_scenario s step).st.phase = s.phase + 1 ∧
        (update_scenario s step).st.phase_time = 0) ∧
      (s.phase_time + step < phase_duration →
        (update_scenario s step).st.phase = s.phase ∧
        (update_scenario s step).st.phase_time = s.phase_time + step)) := by
  obtain ⟨h1, h2, _⟩ := Inv_reachable s h
  refine ⟨h2, ?_, ?_, ?_⟩
  · intro h7
    cases hr : s.running
    · rfl
    · have := h1 hr
      omega
  · intro hr step
    exact update_scenario_not_running s step hr
  · intro hr step
    refine ⟨fun hd => update_scenario_transition s step hr hd, fun hd => ?_⟩
    rw [update_scenario_no_transition s step hr hd]
    exact ⟨rfl, rfl⟩

/-- Witness for C7 at the freshly set-up scenario state. -/
theorem update_scenario_phase_machine_witness :
    Reachable (setup_scenario initState) ∧
    (setup_scenario initState).phase ≤ 7 :=
  ⟨reachable_setup_init,
   (update_scenario_phase_machine _ reachable_setup_init).1⟩

/-- C9: calling `update_scenario` while the scenario is not running returns
immediately: the state is unchanged in every field, no motion command is
issued and no time is accumulated, for every step value. -/
theorem update_scenario_idle_frame (s : ScenarioState) (step : ℚ)
    (h : s.running = false) :
    update_scenario s step = ⟨s, false, false⟩ := by
  simp [update_scenario, h]

/-- Witness for C9 at the initial (never set up) state with `step = 1`. -/
theorem update_scenario_idle_frame_witness :
    initState.running = false ∧
    update_scenario initState 1 = ⟨initState, false, false⟩ :=
  ⟨rfl, update_scenario_idle_frame initState 1 rfl⟩

/-- C10: in every state reachable from `setup_scenario` by `update_scenario`
calls with non-negative steps, `_cube_grasped` holds exactly when the phase
is 2, 3 or 4; it is set by the transition out of phase 1 (into phase 2) and
cleared by the transition out of phase 4 (into phase 5); and the cube's
pose is moved by a step only when the flag holds after that step. -/
theorem cube_grasped_iff_midphases (s : ScenarioState) (h : Reachable s) :
    (s.cube_grasped = true ↔ (s.phase = 2 ∨ s.phase = 3 ∨ s.phase = 4)) ∧
    (s.running = true → ∀ step : ℚ, phase_duration ≤ s.phase_time + step →
      (s.phase = 1 → (update_scenario s step).st.cube_grasped = true) ∧
      (s.phase = 4 → (update_scenario s step).st.cube_grasped = false)) ∧
    (∀ step : ℚ, (update_scenario s step).cubeUpdated = true →
      (update_scenario s step).st.cube_grasped = true) := by
  obtain ⟨_, _, h3⟩ := Inv_reachable s h
  refine ⟨h3, ?_, ?_⟩
  · intro hr step hd
    exact ⟨fun hp => update_scenario_into_2 s step hr hp hd,
           fun hp => update_scenario_into_5 s step hr hp hd⟩
  · intro step
    exact update_scenario_cubeUpdated s step

/-- Witness for C10 at the freshly set-up scenario state. -/
theorem cube_grasped_iff_midphases_witness :
    Reachable (setup_scenario initState) ∧
    ((setup_scenario initState).cube_grasped = true ↔
      ((setup_scenario initState).phase = 2 ∨
       (setup_scenario initState).phase = 3 ∨
       (setup_scenario initState).phase = 4)) :=
  ⟨reachable_setup_init,
   (cube_grasped_iff_midphases _ reachable_setup_init).1⟩

/-- C8: when the articulation or the cuboid handle is unset,
`_reset_scenario` prints its warning and returns at once: neither
`teardown_scenario` nor `setup_scenario` is called and the whole UI state,
the scenario state included, is unchanged. -/
theorem reset_scenario_warns_when_unset (u : UIState)
    (h : u.articulation = none ∨ u.cuboid = none) :
    reset_scenario u = ⟨u, true, false, false⟩ := by
  unfold reset_scenario
  rw [if_pos h]

/-- Witness for C8 with both handles unset. -/
theorem reset_scenario_warns_when_unset_witness :
    ((⟨none, none, initState⟩ : UIState).articulation = none ∨
     (⟨none, none, initState⟩ : UIState).cuboid = none) ∧
    reset_scenario ⟨none, none, initState⟩
      = ⟨⟨none, none, initState⟩, true, false, false⟩ :=
  ⟨Or.inl rfl, reset_scenario_warns_when_unset _ (Or.inl rfl)⟩

end KukaScenario
